import Mathlib

set_option maxRecDepth 100000

/-!
Verification of the dpdk-fifo repository (URP/SRP endpoints over DPDK).

Shallow embedding of:
  * `src/include/ring.hpp`   — the fixed-capacity SPSC `Ring` template;
  * `src/include/urp.hpp`    — which concatenates three translation units:
      - a first URP variant   (embedded here as namespace `urp1`),
      - a second URP variant  (embedded here as namespace `urp2`),
      - the SRP endpoint      (embedded here as namespace `srp`).

Machine integers are modelled as `Nat` with explicit `% 2^w` where the C
code relies on wrap-around (`uint32_t` sequence numbers, `uint64_t` cycle
counters and `size_t` ring indices).  Multi-byte wire fields are stored in
big-endian byte order on a little-endian host, modelled by the byte-swap
functions below: a frame record holds the *stored* bit patterns (suffix
`_s`), and `rte_cpu_to_be_*` / `rte_be_to_cpu_*` are byte swaps.

NIC buffers (`rte_mbuf *`) and `Payload *` pointers are modelled as opaque
`Nat` identifiers where only their identity matters; the contents of frames
are modelled by the frame records.  Indeterminate memory (fresh mbuf
contents that the code does not write) is passed in as an explicit `mem`
parameter, so theorems quantifying over it cover every possible content.
-/

namespace DpdkFifo

/-- `2^64`, the modulus of `size_t` / `uint64_t` arithmetic. -/
def W64 : Nat := 2 ^ 64

/-- `2^32`, the modulus of `uint32_t` arithmetic. -/
def W32 : Nat := 2 ^ 32

/-- C unsigned subtraction `a - b` at width-modulus `w` (for `a, b < w`). -/
def wsub (w a b : Nat) : Nat := (a % w + (w - b % w)) % w

/-- `rte_cpu_to_be_16` / `rte_be_to_cpu_16` on a little-endian host:
swap the two bytes of a 16-bit value. -/
def bswap16 (x : Nat) : Nat :=
  (x % 256) * 256 + (x / 256) % 256

/-- `rte_cpu_to_be_32` / `rte_be_to_cpu_32` on a little-endian host:
reverse the four bytes of a 32-bit value. -/
def bswap32 (x : Nat) : Nat :=
  (x % 256) * 2 ^ 24 + ((x / 256) % 256) * 2 ^ 16 +
    ((x / 2 ^ 16) % 256) * 256 + (x / 2 ^ 24) % 256

/-!
## `src/include/ring.hpp` — the fixed-capacity ring

```cpp
template <typename T, std::size_t Capacity> class Ring {
  static constexpr std::size_t mask_ = Capacity - 1;
  std::array<T, Capacity> buf_{};
  std::size_t head_ = 0;
  std::size_t tail_ = 0;
  ...
};
```

`head_` and `tail_` are free-running `size_t` counters (wrap at `2^64`);
slots are addressed by `index & mask_`.  `buf_` is a `List` of length
`Capacity`; reading uses `List.getD` with the `Inhabited` default standing
for the value-initialised `std::array`.
-/

structure Ring (T : Type) (Capacity : Nat) where
  buf : List T
  head : Nat
  tail : Nat
deriving DecidableEq

namespace Ring

variable {T : Type} {Capacity : Nat}

/-- `bool empty() const { return head_ == tail_; }` -/
def empty (r : Ring T Capacity) : Bool := r.head == r.tail

/-- `std::size_t size() const { return tail_ - head_; }` (`size_t` wrap). -/
def size (r : Ring T Capacity) : Nat := wsub W64 r.tail r.head

/-- `bool full() const { return size() == Capacity; }` -/
def full (r : Ring T Capacity) : Bool := r.size == Capacity

/-- `bool push(const T &item)`: fail on a full ring, otherwise write
`buf_[tail_ & mask_]` and increment `tail_`. -/
def push (r : Ring T Capacity) (item : T) : Bool × Ring T Capacity :=
  if r.full then (false, r)
  else
    (true, { r with
              buf := r.buf.set (r.tail &&& (Capacity - 1)) item,
              tail := (r.tail + 1) % W64 })

/-- `bool pop(T &item)`: fail on an empty ring, otherwise read
`buf_[head_ & mask_]` and increment `head_`.  The second component is the
value assigned to the out-parameter (`none` when pop returned `false`;
`std::move` on a trivially copyable `T` leaves `buf_` unchanged). -/
def pop [Inhabited T] (r : Ring T Capacity) : Bool × Option T × Ring T Capacity :=
  if r.empty then (false, none, r)
  else
    (true, some (r.buf.getD (r.head &&& (Capacity - 1)) default),
      { r with head := (r.head + 1) % W64 })

/-- `T *peek()`: the element at the head, `nullptr` on an empty ring.
Read-only: it does not touch `head_`, `tail_` or `buf_`. -/
def peek [Inhabited T] (r : Ring T Capacity) : Option T :=
  if r.empty then none
  else some (r.buf.getD (r.head &&& (Capacity - 1)) default)

/-- `std::span<T> longest_span()`: the contiguous slots starting at
`head_ & mask_`, of length `min(tail_ - head_, Capacity - (head_ & mask_))`.
Read-only. -/
def longest_span [Inhabited T] (r : Ring T Capacity) : List T :=
  let start := r.head &&& (Capacity - 1)
  let len := min r.size (Capacity - start)
  (List.range len).map (fun i => r.buf.getD (start + i) default)

/-- `T &operator[](std::size_t index) { return buf_[(head_ + index) & mask_]; }`
collected over `index < size()`: the logical contents of the ring from head
to tail. -/
def toList [Inhabited T] (r : Ring T Capacity) : List T :=
  (List.range r.size).map (fun i => r.buf.getD ((r.head + i) &&& (Capacity - 1)) default)

/-- Well-formedness of the C++ representation: `size_t` fields are in range,
the backing array has the declared capacity, and the occupancy does not
exceed it. -/
def WF (r : Ring T Capacity) : Prop :=
  r.buf.length = Capacity ∧ r.head < W64 ∧ r.tail < W64 ∧ r.size ≤ Capacity

instance (r : Ring T Capacity) : Decidable (WF r) := by
  unfold WF
  infer_instance

end Ring

/-- `struct Payload { size_t size; uint8_t data[MAX_PAYLOAD]; };`
(identical in the `urp` and `srp` namespaces of the source). -/
structure Payload where
  size : Nat
  data : List Nat
deriving DecidableEq

/-- Outcome of a C function in this embedding: a returned value, a returned
*uninitialised* (indeterminate) value, or a call to `panic` (which prints
and `exit(1)`s the process, see `src/include/common.hpp`). -/
inductive Res (α : Type) where
  | ok : α → Res α
  | indet : Res α
  | panicked : Res α
deriving DecidableEq

/-- `sizeof(struct rte_ether_hdr)` = 6 + 6 + 2. -/
def ETHER_HDR_LEN : Nat := 14

/-- An Ethernet frame inside an `rte_mbuf`, as both URP-v1 and SRP lay it
out by struct overlay: the Ethernet header followed by a fixed-size L2
header `{u32 seq; u16 version; u16 opcode; u16 payload_len; u8 payload[1024]}`.
Fields with suffix `_s` hold the *stored* (big-endian) bit patterns;
`payload_mem` is the 1024-byte payload region. -/
structure EthFrame where
  pkt_len : Nat
  dst : Nat
  src : Nat
  ether_type : Nat
  seq_s : Nat
  version_s : Nat
  opcode_s : Nat
  payload_len_s : Nat
  payload_mem : List Nat
deriving DecidableEq

/-!
## SRP (`namespace srp` in `src/include/urp.hpp`, third translation unit)
-/

namespace srp

/-- Window capacity: `static constexpr size_t BURST_SIZE = 64;` —
`Ring<rte_mbuf *, BURST_SIZE> outstanding_tx`. -/
def BURST_SIZE : Nat := 64

def OPCODE_ACK : Nat := 0x11

def OPCODE_DATA : Nat := 0x10

def ETH_TYPE : Nat := 0x88B5

def MAX_PAYLOAD : Nat := 1024

/-- `sizeof(srp_hdr)`: 4 + 2 + 2 + 2 + 1024 = 1034, padded to the 4-byte
alignment of the leading `uint32_t`, giving 1036. -/
def SIZEOF_SRP_HDR : Nat := 1036

/-- The header view produced by `parse_frame` (fields in CPU byte order). -/
structure srp_hdr where
  seq : Nat
  version : Nat
  opcode : Nat
  payload_len : Nat
  payload : List Nat
deriving DecidableEq

/-- `SRPEndpoint::build_data_frame` (source lines 732–759).
`mem` is the indeterminate prior content of the freshly allocated mbuf's
payload region (the code only overwrites its first `payload->size` bytes,
and only when `payload->size` is nonzero).  Allocation failure and append
failure both `panic` in the source; the 1050-byte frame always fits the
2048-byte mbufs, so the built frame is returned directly. -/
def build_data_frame (src_mac dst_mac : Nat) (payload : Payload) (seq : Nat)
    (mem : List Nat) : EthFrame :=
  { pkt_len := ETHER_HDR_LEN + SIZEOF_SRP_HDR
  , dst := dst_mac
  , src := src_mac
  , ether_type := bswap16 ETH_TYPE
  , version_s := bswap16 1
  , opcode_s := bswap16 OPCODE_DATA
  , seq_s := bswap32 (seq % W32)
  , payload_len_s := bswap16 (payload.size % 2 ^ 16)
  , payload_mem :=
      if payload.size ≠ 0 then
        payload.data.take payload.size ++ mem.drop payload.size
      else mem }

/-- `SRPEndpoint::parse_frame` (source lines 761–783).

```cpp
srp_hdr sh;                                   // uninitialised
if (pkt_len < eth+hdr) return sh;             // -> indet
if (eth->ether_type != cpu_to_be(ETH_TYPE)) return sh;   // -> indet
sh = *(srp_hdr *)(eth + 1);
if (be_to_cpu(sh.version) != 1) panic(...);
...
if (pkt_len < need || sh.payload_len > 1024) panic(...);
return sh;
```
-/
def parse_frame (f : EthFrame) : Res srp_hdr :=
  if f.pkt_len < ETHER_HDR_LEN + SIZEOF_SRP_HDR then .indet
  else if f.ether_type ≠ bswap16 ETH_TYPE then .indet
  else
    let version := bswap16 f.version_s
    if version ≠ 1 then .panicked
    else
      let opcode := bswap16 f.opcode_s
      let payload_len := bswap16 f.payload_len_s
      let seq := bswap32 f.seq_s
      if f.pkt_len < ETHER_HDR_LEN + SIZEOF_SRP_HDR ∨ MAX_PAYLOAD < payload_len
      then .panicked
      else .ok { seq := seq, version := version, opcode := opcode,
                 payload_len := payload_len, payload := f.payload_mem }

/-- `SRPEndpoint::EngineState` (source lines 717–728).  `rte_mbuf *` values
in the window are opaque `Nat` identifiers. -/
structure EngineState where
  outstanding_tx : Ring Nat BURST_SIZE
  tx_seq : Nat
  rx_seq : Nat
  need_ack : Bool
  last_tx_cycles : Nat
  timeout_cycles : Nat
  learned_peer : Nat
  have_learned_peer : Bool
deriving DecidableEq

/-- `SRPEndpoint::start` (source lines 656–663), the timeout selection:
`st.timeout_cycles = cfg.retransmit_timeout_cycles; if (st.timeout_cycles == 0)
st.timeout_cycles = rte_get_timer_hz() / 10;` -/
def start_timeout (cfg_timeout hz : Nat) : Nat :=
  if cfg_timeout = 0 then hz / 10 else cfg_timeout

/-- `SRPEndpoint::rx_ack` (source lines 860–873).

```cpp
auto acked = rcv.seq - st.rx_seq;   // uint32_t modular subtraction
for (int i = 0; i < acked; i++) {
  struct rte_mbuf *m;
  if (st.outstanding_tx.pop(m)) { rte_pktmbuf_free(m); break; }
  else panic("outstanding_tx is empty");
}
```

The `break` exits the loop after the first successful pop, so at most one
window entry is ever popped regardless of `acked`; a pop failure (empty
window with `acked ≥ 1`) panics.  Result: `none` models the panic, `some`
carries the new state and the list of freed mbufs. -/
def rx_ack (st : EngineState) (rcv : srp_hdr) :
    Option (EngineState × List Nat) :=
  let acked := wsub W32 rcv.seq st.rx_seq
  if acked = 0 then some (st, [])
  else
    match st.outstanding_tx.pop with
    | (true, some m, r) => some ({ st with outstanding_tx := r }, [m])
    | _ => none

/-- `SRPEndpoint::tx_retransmit` (source lines 785–797): on a nonempty
window whose timeout has elapsed, burst-send `outstanding_tx.longest_span()`
and reset `last_tx_cycles` to `now`.  The returned list is the burst handed
to `rte_eth_tx_burst` (which does not mutate the window). -/
def tx_retransmit (st : EngineState) (now : Nat) : EngineState × List Nat :=
  if st.outstanding_tx.empty then (st, [])
  else if st.timeout_cycles ≤ wsub W64 now st.last_tx_cycles then
    ({ st with last_tx_cycles := now }, st.outstanding_tx.longest_span)
  else (st, [])

/-- `SRPEndpoint::tx` (source lines 799–833).  `outq` models the DPDK
outbound ring as a FIFO of `Payload` records; `fresh` is the mbuf that
`build_data_frame` would allocate for the new frame (frame contents are
modelled by `build_data_frame` separately; the window stores only the mbuf
identity).  Note the dequeue is *not* guarded by window fullness, the
result of `outstanding_tx.push` is discarded, and the dequeued payload is
`rte_free`d.  The trailing `span_from` sends are read-only on the window. -/
def tx (st : EngineState) (outq : List Payload) (now fresh : Nat) :
    EngineState × List Payload :=
  let st1 := (tx_retransmit st now).1
  match outq with
  | [] => (st1, [])
  | _ :: rest =>
      let st2 := { st1 with tx_seq := (st1.tx_seq + 1) % W32 }
      let st3 := { st2 with outstanding_tx := (st2.outstanding_tx.push fresh).2 }
      (st3, rest)

/-- The body of the per-frame loop of `SRPEndpoint::rx` (source lines
878–911) *after* `parse_frame`, on an arbitrary received header `rcv`
(thereby also covering the indeterminate header an invalid frame yields):
learn the peer MAC, then dispatch on the opcode.  Result: `none` models a
panic from `rx_ack`; otherwise the new state, the freed window mbufs, and
the Payload enqueued to the inbound ring, if any (`rte_zmalloc` zeroes the
fresh record, so bytes beyond `payload_len` are 0). -/
def rx_one (st : EngineState) (rcv : srp_hdr) (src_mac : Nat) :
    Option (EngineState × List Nat × Option Payload) :=
  let st0 := { st with learned_peer := src_mac, have_learned_peer := true }
  if rcv.opcode = OPCODE_ACK then
    match rx_ack st0 rcv with
    | some (st1, freed) => some (st1, freed, none)
    | none => none
  else
    if rcv.seq = st0.rx_seq then
      some ({ st0 with rx_seq := (st0.rx_seq + 1) % W32, need_ack := true },
        [],
        some { size := rcv.payload_len,
               data := rcv.payload.take rcv.payload_len ++
                 List.replicate (MAX_PAYLOAD - rcv.payload_len) 0 })
    else
      some ({ st0 with need_ack := true }, [], none)

end srp

/-!
## URP, first variant (`namespace urp`, first translation unit of
`src/include/urp.hpp`, lines 19–256)
-/

namespace urp1

def BURST_SIZE : Nat := 128

def OPCODE_DATA : Nat := 0x20

def ETH_TYPE : Nat := 0x88B6

def MAX_PAYLOAD : Nat := 1024

/-- `sizeof(urp_hdr)` for the first variant, whose header carries a fixed
`uint8_t payload[MAX_PAYLOAD]`: 4 + 2 + 2 + 2 + 1024 = 1034, padded to
4-byte alignment = 1036 (same layout as `srp_hdr`, so `EthFrame` is
reused). -/
def SIZEOF_URP_HDR : Nat := 1036

/-- The parse result `urp_hdr` of the first variant (CPU byte order). -/
structure urp_hdr where
  seq : Nat
  version : Nat
  opcode : Nat
  payload_len : Nat
  payload : List Nat
deriving DecidableEq

/-- `URPEndpoint::build_data_frame`, first variant (source lines 133–161):
fixed frame length `eth + sizeof(urp_hdr)`, all header fields written,
payload bytes copied when `payload->size > 0`.  (`nullptr` returns on
mbuf-pool exhaustion are environment failures, not modelled; the 1050-byte
append always fits.) -/
def build_data_frame (src_mac dst_mac : Nat) (payload : Payload) (seq : Nat)
    (mem : List Nat) : EthFrame :=
  { pkt_len := ETHER_HDR_LEN + SIZEOF_URP_HDR
  , dst := dst_mac
  , src := src_mac
  , ether_type := bswap16 ETH_TYPE
  , version_s := bswap16 1
  , opcode_s := bswap16 OPCODE_DATA
  , seq_s := bswap32 (seq % W32)
  , payload_len_s := bswap16 (payload.size % 2 ^ 16)
  , payload_mem :=
      if 0 < payload.size then
        payload.data.take payload.size ++ mem.drop payload.size
      else mem }

/-- `URPEndpoint::parse_frame`, first variant (source lines 163–187):
`urp_hdr hdr{}` is zero-initialised and returned as-is on a short buffer or
an EtherType mismatch; otherwise the four fields are byte-swapped in,
`payload_len` is clamped to `MAX_PAYLOAD`, and that many payload bytes are
copied. -/
def parse_frame (f : EthFrame) : urp_hdr :=
  let hdr0 : urp_hdr :=
    { seq := 0, version := 0, opcode := 0, payload_len := 0,
      payload := List.replicate MAX_PAYLOAD 0 }
  if f.pkt_len < ETHER_HDR_LEN + SIZEOF_URP_HDR then hdr0
  else if bswap16 f.ether_type ≠ ETH_TYPE then hdr0
  else
    let len0 := bswap16 f.payload_len_s
    let len := if MAX_PAYLOAD < len0 then MAX_PAYLOAD else len0
    { seq := bswap32 f.seq_s
    , version := bswap16 f.version_s
    , opcode := bswap16 f.opcode_s
    , payload_len := len
    , payload := f.payload_mem.take len ++ List.replicate (MAX_PAYLOAD - len) 0 }

/-- The `while (rte_ring_sc_dequeue_bulk(...) != 0)` loop of the first
variant's `URPEndpoint::tx` (source lines 191–211): each iteration
bulk-dequeues exactly `BURST_SIZE` Payload pointers (bulk dequeue is
all-or-nothing), frames and sends them, and then `rte_free`s every dequeued
Payload.  Structural fuel = initial queue length (each iteration consumes
`BURST_SIZE ≥ 1` entries, so it suffices).  Returns (remaining outbound
ring, Payload pointers freed by `rte_free`). -/
def txLoop : Nat → List Nat → List Nat × List Nat
  | 0, q => (q, [])
  | fuel + 1, q =>
      if BURST_SIZE ≤ q.length then
        let r := txLoop fuel (q.drop BURST_SIZE)
        (r.1, q.take BURST_SIZE ++ r.2)
      else (q, [])

/-- `URPEndpoint::tx`, first variant: run the dequeue loop to completion. -/
def tx (q : List Nat) : List Nat × List Nat := txLoop q.length q

/-- The per-frame body of the first variant's `URPEndpoint::rx` (source
lines 213–241): parse, and for a DATA opcode allocate a fresh zeroed
`Payload` (`rte_zmalloc`), set its `size` from the parsed `payload_len`,
copy that many payload bytes, and spin-enqueue it into the inbound ring;
the NIC buffer is freed in every case.  Returns the Payload enqueued to
the inbound ring, if any. -/
def rx_one (f : EthFrame) : Option Payload :=
  let rcv := parse_frame f
  if rcv.opcode = OPCODE_DATA then
    some { size := rcv.payload_len
         , data := rcv.payload.take rcv.payload_len ++
             List.replicate (MAX_PAYLOAD - rcv.payload_len) 0 }
  else none

end urp1

/-!
## URP, second variant (`namespace urp`, second translation unit of
`src/include/urp.hpp`, lines 277–573)
-/

namespace urp2

def DEFAULT_BURST_SIZE : Nat := 128

def OPCODE_DATA : Nat := 0x20

def ETH_TYPE : Nat := 0x88B6

def MAX_PAYLOAD : Nat := 1024

/-- `sizeof(urp_hdr)` for the second variant, whose `payload` member is a
flexible array: 4 + 2 + 2 + 2 = 10, padded to 4-byte alignment = 12. -/
def SIZEOF_URP_HDR : Nat := 12

/-- Bytes `rte_pktmbuf_append` can provide: the pool's 2048-byte data room
minus the 128-byte `RTE_PKTMBUF_HEADROOM` restored by
`rte_pktmbuf_reset_headroom`. -/
def TAILROOM : Nat := 1920

/-- A frame of the second variant: Ethernet header, the 12-byte L2 header,
then a `payload->size`-byte payload region that `build_data_frame` never
writes (`payload_mem` is its indeterminate content). -/
structure UrpFrame where
  pkt_len : Nat
  dst : Nat
  src : Nat
  ether_type : Nat
  seq_s : Nat
  version_s : Nat
  opcode_s : Nat
  payload_len_s : Nat
  payload_mem : List Nat
deriving DecidableEq

/-- The parse result `urp_hdr{}` of the second variant: header fields only
(the flexible payload member is empty). -/
structure urp_hdr where
  seq : Nat
  version : Nat
  opcode : Nat
  payload_len : Nat
deriving DecidableEq

/-- `URPEndpoint::build_data_frame`, second variant (source lines 497–527):
`frame_len = eth + sizeof(urp_hdr) + payload->size`; there is **no** size
check against `MAX_PAYLOAD` — `payload_len` is stored as the `uint16_t`
truncation of `payload->size` and the payload bytes themselves are *not*
copied (the `rte_memcpy` is commented out).  `rte_pktmbuf_append` failure
(frame longer than the tailroom) frees the mbuf and panics. -/
def build_data_frame (src_mac dst_mac : Nat) (payload : Payload) (seq : Nat)
    (mem : List Nat) : Res UrpFrame :=
  let frame_len := ETHER_HDR_LEN + SIZEOF_URP_HDR + payload.size
  if TAILROOM < frame_len then .panicked
  else
    .ok { pkt_len := frame_len
        , dst := dst_mac
        , src := src_mac
        , ether_type := bswap16 ETH_TYPE
        , version_s := bswap16 1
        , opcode_s := bswap16 OPCODE_DATA
        , seq_s := bswap32 (seq % W32)
        , payload_len_s := bswap16 (payload.size % 2 ^ 16)
        , payload_mem := mem }

/-- `URPEndpoint::parse_frame`, second variant (source lines 529–551):
`urp_hdr hdr{}` zero-initialised; buffers shorter than 100 bytes are
rejected (returning the zero header); otherwise **only** `opcode` is
byte-swapped in — the `seq`, `version`, `payload_len` and payload reads are
commented out, so they stay 0 and the `payload_len > MAX_PAYLOAD` clamp
can never fire.  No EtherType or version validation is performed. -/
def parse_frame (f : UrpFrame) : urp_hdr :=
  let hdr0 : urp_hdr := { seq := 0, version := 0, opcode := 0, payload_len := 0 }
  if f.pkt_len < 100 then hdr0
  else
    let hdr := { hdr0 with opcode := bswap16 f.opcode_s }
    if MAX_PAYLOAD < hdr.payload_len then { hdr with payload_len := MAX_PAYLOAD }
    else hdr

/-- `URPEndpoint::tx`, second variant (source lines 407–438):
burst-dequeue up to `tx_burst` Payload pointers; if any were dequeued,
panic when `unit_size < sizeof(urp_hdr) + sizeof(rte_ether_hdr)`, otherwise
frame and send them all (every frame is built from `tx_payloads_ptr_buf[0]`
whose `size` is overwritten to `unit_size - 26`).  No Payload is ever
freed.  Returns (remaining outbound ring, dequeued pointers, pointers
freed). -/
def tx (unit_size tx_burst : Nat) (q : List Nat) :
    Res (List Nat × List Nat × List Nat) :=
  let nb_payloads := min tx_burst q.length
  if nb_payloads = 0 then .ok (q, [], [])
  else if unit_size < SIZEOF_URP_HDR + ETHER_HDR_LEN then .panicked
  else .ok (q.drop nb_payloads, q.take nb_payloads, [])

/-- `URPEndpoint::rx`, second variant (source lines 440–483): for each
received buffer, parse it (the result is only read through the always-true
`opcode == OPCODE_DATA || true` test), latch the peer MAC on the first
frame, and free the NIC buffer; afterwards spin-enqueue the first `nb_rx`
pointers of the *preallocated* `rx_payloads_ptr_buf` into the inbound ring.
No fresh Payload is allocated and no frame byte is copied anywhere.
Returns (NIC buffers freed, Payload pointers enqueued inbound, number of
fresh Payload allocations performed). -/
def rx (frames : List UrpFrame) (prealloc : List Nat) :
    List UrpFrame × List Nat × Nat :=
  (frames, prealloc.take frames.length, 0)

end urp2

/-- Build, then parse, with the second URP variant (used to state round-trip
properties without destructuring `Res`): `none` when the build panicked. -/
def parseAfterBuild2 (src dst : Nat) (p : Payload) (seq : Nat)
    (mem : List Nat) : Option urp2.urp_hdr :=
  match urp2.build_data_frame src dst p seq mem with
  | .ok f => some (urp2.parse_frame f)
  | _ => none

/-!
## Concrete fixtures for witnesses and counterexamples
-/

/-- A 64-slot SRP window holding mbufs 101 (slot 0) and 102 (slot 1),
head 0, tail 2. -/
def exWindow2 : Ring Nat srp.BURST_SIZE :=
  { buf := 101 :: 102 :: List.replicate 62 0, head := 0, tail := 2 }

/-- SRP engine state with two outstanding frames and `rx_seq = 0`. -/
def exState2 : srp.EngineState :=
  { outstanding_tx := exWindow2, tx_seq := 2, rx_seq := 0, need_ack := false,
    last_tx_cycles := 0, timeout_cycles := 100, learned_peer := 0,
    have_learned_peer := true }

/-- An ACK header acknowledging both outstanding frames (`seq = 2`). -/
def exAck2 : srp.srp_hdr :=
  { seq := 2, version := 1, opcode := srp.OPCODE_ACK, payload_len := 0,
    payload := [] }

/-- SRP engine state with an empty outstanding-TX window. -/
def exStateEmpty : srp.EngineState :=
  { outstanding_tx := { buf := List.replicate 64 0, head := 0, tail := 0 },
    tx_seq := 0, rx_seq := 0, need_ack := false, last_tx_cycles := 0,
    timeout_cycles := 100, learned_peer := 0, have_learned_peer := false }

/-- A stale/duplicate ACK: `seq = 1` while nothing is outstanding. -/
def exAck1 : srp.srp_hdr :=
  { seq := 1, version := 1, opcode := srp.OPCODE_ACK, payload_len := 0,
    payload := [] }

/-- SRP engine state whose outstanding-TX window is full (64 of 64). -/
def exStateFull : srp.EngineState :=
  { outstanding_tx := { buf := List.replicate 64 0, head := 0, tail := 64 },
    tx_seq := 64, rx_seq := 0, need_ack := false, last_tx_cycles := 0,
    timeout_cycles := 100, learned_peer := 0, have_learned_peer := true }

/-- SRP engine state whose window wraps the circular buffer: head 63,
tail 65, holding mbuf 7 (slot 63) and mbuf 8 (slot 0); retransmit timeout
100 cycles, last send at cycle 0. -/
def exStateWrap : srp.EngineState :=
  { outstanding_tx := { buf := 8 :: List.replicate 62 0 ++ [7], head := 63,
                        tail := 65 },
    tx_seq := 2, rx_seq := 0, need_ack := false, last_tx_cycles := 0,
    timeout_cycles := 100, learned_peer := 0, have_learned_peer := true }

/-- The result of `srp.rx_one exStateFull exAck1 5` (spelled out; used by a
witness below). -/
def exRxOut : srp.EngineState × List Nat × Option Payload :=
  ({ outstanding_tx := { buf := List.replicate 64 0, head := 1, tail := 64 },
     tx_seq := 64, rx_seq := 0, need_ack := false, last_tx_cycles := 0,
     timeout_cycles := 100, learned_peer := 5, have_learned_peer := true },
   [0], none)

/-- A 100-byte Payload of 3s (data array fully initialised). -/
def exPayload100 : Payload := { size := 100, data := List.replicate 1024 3 }

/-- An oversize Payload: `MAX_PAYLOAD + 1` bytes. -/
def exPayload1025 : Payload := { size := 1025, data := List.replicate 1025 4 }

/-- A concrete instance of indeterminate mbuf memory. -/
def exMem : List Nat := List.replicate 1024 9

/-- An SRP frame with the right length and EtherType but version 2. -/
def exBadVersionFrame : EthFrame :=
  { pkt_len := ETHER_HDR_LEN + srp.SIZEOF_SRP_HDR, dst := 0, src := 0,
    ether_type := bswap16 srp.ETH_TYPE, seq_s := 0,
    version_s := bswap16 2, opcode_s := bswap16 srp.OPCODE_DATA,
    payload_len_s := 0, payload_mem := List.replicate 1024 0 }

/-- An SRP frame with version 1 but a `payload_len` field of 2000. -/
def exOversizeLenFrame : EthFrame :=
  { pkt_len := ETHER_HDR_LEN + srp.SIZEOF_SRP_HDR, dst := 0, src := 0,
    ether_type := bswap16 srp.ETH_TYPE, seq_s := 0,
    version_s := bswap16 1, opcode_s := bswap16 srp.OPCODE_DATA,
    payload_len_s := bswap16 2000, payload_mem := List.replicate 1024 0 }

/-- A well-formed 126-byte URP-v2 DATA frame whose payload region carries
100 bytes of 7s. -/
def exUrp2Frame : urp2.UrpFrame :=
  { pkt_len := 126, dst := 0, src := 0, ether_type := bswap16 urp2.ETH_TYPE,
    seq_s := bswap32 5, version_s := bswap16 1,
    opcode_s := bswap16 urp2.OPCODE_DATA, payload_len_s := bswap16 100,
    payload_mem := List.replicate 100 7 }

/-- A well-formed URP-v1 DATA frame with `payload_len = 8` carrying bytes
1..8. -/
def exUrp1Frame : EthFrame :=
  { pkt_len := ETHER_HDR_LEN + urp1.SIZEOF_URP_HDR, dst := 0, src := 0,
    ether_type := bswap16 urp1.ETH_TYPE, seq_s := bswap32 0,
    version_s := bswap16 1, opcode_s := bswap16 urp1.OPCODE_DATA,
    payload_len_s := bswap16 8,
    payload_mem := [1, 2, 3, 4, 5, 6, 7, 8] ++ List.replicate 1016 0 }

end DpdkFifo

/-!
# Theorems

Helper lemmas first, then one theorem per claim (with witnesses and
counterexamples where applicable).
-/

namespace DpdkFifo

theorem bswap16_bytes {b0 b1 : Nat} (h0 : b0 < 256) (h1 : b1 < 256) :
    bswap16 (b1 * 256 + b0) = b0 * 256 + b1 := by
  unfold bswap16
  omega

theorem bswap16_involutive {x : Nat} (hx : x < 2 ^ 16) :
    bswap16 (bswap16 x) = x := by
  obtain ⟨b0, b1, h0, h1, rfl⟩ :
      ∃ b0 b1, b0 < 256 ∧ b1 < 256 ∧ x = b1 * 256 + b0 :=
    ⟨x % 256, x / 256, by omega, by omega, by omega⟩
  rw [bswap16_bytes h0 h1, bswap16_bytes h1 h0]

theorem bswap32_bytes {b0 b1 b2 b3 : Nat} (h0 : b0 < 256) (h1 : b1 < 256)
    (h2 : b2 < 256) (h3 : b3 < 256) :
    bswap32 (b3 * 2 ^ 24 + b2 * 2 ^ 16 + b1 * 256 + b0)
      = b0 * 2 ^ 24 + b1 * 2 ^ 16 + b2 * 256 + b3 := by
  unfold bswap32
  omega

theorem bswap32_involutive {x : Nat} (hx : x < 2 ^ 32) :
    bswap32 (bswap32 x) = x := by
  obtain ⟨b0, b1, b2, b3, h0, h1, h2, h3, rfl⟩ :
      ∃ b0 b1 b2 b3, b0 < 256 ∧ b1 < 256 ∧ b2 < 256 ∧ b3 < 256 ∧
        x = b3 * 2 ^ 24 + b2 * 2 ^ 16 + b1 * 256 + b0 :=
    ⟨x % 256, x / 256 % 256, x / 2 ^ 16 % 256, x / 2 ^ 24,
      by omega, by omega, by omega, by omega, by omega⟩
  rw [bswap32_bytes h0 h1 h2 h3, bswap32_bytes h3 h2 h1 h0]

namespace Ring

variable {T : Type} {Capacity : Nat}

theorem size_push {r : Ring T Capacity} (hCap : Capacity < W64)
    (hw : WF r) (x : T) :
    (r.push x).2.size = if r.full then r.size else r.size + 1 := by
  obtain ⟨hb, hh, ht, hs⟩ := hw
  unfold push
  by_cases hf : r.full
  · simp [hf]
  · simp only [hf, if_false, Bool.false_eq_true]
    have hfne : r.size ≠ Capacity := by
      simpa [full] using hf
    unfold size wsub at hs hfne ⊢
    simp only [W64] at *
    omega

theorem size_pop [Inhabited T] {r : Ring T Capacity} (hw : WF r) :
    (r.pop).2.2.size = if r.empty then r.size else r.size - 1 := by
  obtain ⟨hb, hh, ht, hs⟩ := hw
  unfold pop
  by_cases he : r.empty
  · simp [he]
  · simp only [he, if_false, Bool.false_eq_true]
    have hne : r.head ≠ r.tail := by
      simpa [empty] using he
    unfold size wsub at hs ⊢
    simp only [W64] at *
    omega

theorem WF_push {r : Ring T Capacity} (hCap : Capacity < W64)
    (hw : WF r) (x : T) : WF (r.push x).2 := by
  have hsz := size_push (r := r) hCap hw x
  obtain ⟨hb, hh, ht, hs⟩ := hw
  by_cases hf : r.full
  · unfold push
    simp only [hf, if_true]
    exact ⟨hb, hh, ht, hs⟩
  · have hfne : r.size ≠ Capacity := by simpa [full] using hf
    refine ⟨?_, ?_, ?_, ?_⟩
    · unfold push
      simp [hf, hb]
    · unfold push
      simp [hf, hh]
    · unfold push
      simp only [hf, if_false, Bool.false_eq_true]
      exact Nat.mod_lt _ (by simp [W64])
    · rw [hsz]
      simp only [hf, if_false, Bool.false_eq_true]
      omega

theorem WF_pop [Inhabited T] {r : Ring T Capacity}
    (hw : WF r) : WF (r.pop).2.2 := by
  have hsz := size_pop (r := r) hw
  obtain ⟨hb, hh, ht, hs⟩ := hw
  by_cases he : r.empty
  · unfold pop
    simp only [he, if_true]
    exact ⟨hb, hh, ht, hs⟩
  · refine ⟨?_, ?_, ?_, ?_⟩
    · unfold pop
      simp [he, hb]
    · unfold pop
      simp only [he, if_false, Bool.false_eq_true]
      exact Nat.mod_lt _ (by simp [W64])
    · unfold pop
      simp [he, ht]
    · rw [hsz]
      simp only [he, if_false, Bool.false_eq_true]
      omega

theorem push_full {r : Ring T Capacity} (hf : r.full = true) (x : T) :
    r.push x = (false, r) := by
  unfold push
  simp [hf]

theorem pop_empty [Inhabited T] {r : Ring T Capacity} (he : r.empty = true) :
    r.pop = (false, none, r) := by
  unfold pop
  simp [he]

end Ring

/-- `x & mask_` for the 64-slot SRP window (`mask_ = 63`). -/
theorem land_63 (x : Nat) : x &&& 63 = x % 64 := by
  have h := Nat.and_pow_two_sub_one_eq_mod x 6
  norm_num at h
  exact h

/-- When the occupied slots do not wrap around the circular buffer,
`longest_span` is the whole logical content of the window. -/
theorem longest_span_no_wrap {T : Type} [Inhabited T]
    (r : Ring T srp.BURST_SIZE) (hnw : r.head % 64 + r.size ≤ 64) :
    r.longest_span = r.toList := by
  have hm : ∀ x : Nat, x &&& (srp.BURST_SIZE - 1) = x % 64 := fun x => land_63 x
  have hb : srp.BURST_SIZE = 64 := rfl
  simp only [Ring.longest_span, Ring.toList, hm]
  have hmin : min r.size (srp.BURST_SIZE - r.head % 64) = r.size := by omega
  rw [hmin]
  refine List.map_congr_left ?_
  intro i hi
  have hi' : i < r.size := List.mem_range.mp hi
  congr 1
  omega

/-- `tx_retransmit` never changes the outstanding-TX window. -/
theorem tx_retransmit_outstanding (st : srp.EngineState) (now : Nat) :
    (srp.tx_retransmit st now).1.outstanding_tx = st.outstanding_tx := by
  unfold srp.tx_retransmit
  split
  · rfl
  · split <;> rfl

/-- A non-panicking `rx_ack` preserves well-formedness of the window. -/
theorem rx_ack_WF {st : srp.EngineState} {rcv : srp.srp_hdr}
    {pr : srp.EngineState × List Nat}
    (hw : Ring.WF st.outstanding_tx)
    (h : srp.rx_ack st rcv = some pr) :
    Ring.WF pr.1.outstanding_tx := by
  unfold srp.rx_ack at h
  by_cases h0 : wsub W32 rcv.seq st.rx_seq = 0
  · rw [if_pos h0] at h
    obtain rfl : (st, ([] : List Nat)) = pr := Option.some.inj h
    exact hw
  · rw [if_neg h0] at h
    have hWFpop := Ring.WF_pop (r := st.outstanding_tx) hw
    split at h
    · rename_i m r heq
      rw [heq] at hWFpop
      obtain rfl := Option.some.inj h
      exact hWFpop
    · exact absurd h (by simp)

/-- Closed form of the first URP variant's TX drain loop, for any
sufficient fuel: it consumes (and frees) all complete 128-entry batches. -/
theorem txLoop_spec (fuel : Nat) :
    ∀ q : List Nat, q.length ≤ fuel →
      urp1.txLoop fuel q =
        (q.drop (q.length - q.length % urp1.BURST_SIZE),
         q.take (q.length - q.length % urp1.BURST_SIZE)) := by
  induction fuel with
  | zero =>
    intro q hq
    obtain rfl : q = [] := List.eq_nil_of_length_eq_zero (Nat.le_zero.mp hq)
    rfl
  | succ n ih =>
    intro q hq
    simp only [urp1.txLoop, urp1.BURST_SIZE] at *
    by_cases hb : 128 ≤ q.length
    · rw [if_pos hb]
      have hlen : (q.drop 128).length ≤ n := by
        simp only [List.length_drop]
        omega
      rw [ih (q.drop 128) hlen]
      dsimp only
      simp only [List.length_drop]
      have e2 : 128 + ((q.length - 128) - (q.length - 128) % 128)
          = q.length - q.length % 128 := by omega
      have c1 : (q.drop 128).drop ((q.length - 128) - (q.length - 128) % 128)
          = q.drop (q.length - q.length % 128) := by
        rw [List.drop_drop, e2]
      have c2 : q.take 128 ++
            (q.drop 128).take ((q.length - 128) - (q.length - 128) % 128)
          = q.take (q.length - q.length % 128) := by
        rw [← List.take_add, e2]
      rw [c1, c2]
    · rw [if_neg hb]
      have hlt : q.length % 128 = q.length := Nat.mod_eq_of_lt (by omega)
      rw [hlt]
      simp

/-- `urp1.tx` in closed form. -/
theorem urp1_tx_spec (q : List Nat) :
    urp1.tx q = (q.drop (q.length - q.length % urp1.BURST_SIZE),
                 q.take (q.length - q.length % urp1.BURST_SIZE)) :=
  txLoop_spec q.length q (Nat.le_refl _)

/-- C10: every mutating operation of the fixed-capacity `Ring` template
(`push`, `pop`) preserves the occupancy invariant `0 ≤ tail − head ≤
Capacity` (`Ring.WF`, whose last conjunct bounds the wrapping `size() =
tail_ - head_` by `Capacity`); `push` on a full ring and `pop` from an
empty ring return `false` and leave `head`, `tail` and the stored elements
unchanged.  `peek`, `longest_span`, `span_from` and `operator[]` are
read-only accessors: their embeddings are pure functions of the ring and
return no modified state. -/
theorem ring_ops_preserve_invariant {T : Type} [Inhabited T]
    {Capacity : Nat} (hCap : Capacity < W64) (r : Ring T Capacity)
    (hw : Ring.WF r) (x : T) :
    Ring.WF (r.push x).2 ∧ Ring.WF (r.pop).2.2 ∧
    (r.full = true → r.push x = (false, r)) ∧
    (r.empty = true → r.pop = (false, none, r)) :=
  ⟨Ring.WF_push hCap hw x, Ring.WF_pop hw,
    fun hf => Ring.push_full hf x, fun he => Ring.pop_empty he⟩

/-- Witness for `ring_ops_preserve_invariant`, at a concrete empty 4-slot
ring of `Nat` and pushed element 5. -/
theorem ring_ops_preserve_invariant_witness :
    ((4 < W64 ∧ Ring.WF (⟨[0, 0, 0, 0], 0, 0⟩ : Ring Nat 4)) ∧
      (Ring.WF ((⟨[0, 0, 0, 0], 0, 0⟩ : Ring Nat 4).push 5).2 ∧
        Ring.WF ((⟨[0, 0, 0, 0], 0, 0⟩ : Ring Nat 4).pop).2.2 ∧
        ((⟨[0, 0, 0, 0], 0, 0⟩ : Ring Nat 4).full = true →
          (⟨[0, 0, 0, 0], 0, 0⟩ : Ring Nat 4).push 5 =
            (false, ⟨[0, 0, 0, 0], 0, 0⟩)) ∧
        ((⟨[0, 0, 0, 0], 0, 0⟩ : Ring Nat 4).empty = true →
          (⟨[0, 0, 0, 0], 0, 0⟩ : Ring Nat 4).pop =
            (false, none, ⟨[0, 0, 0, 0], 0, 0⟩)))) :=
  ⟨⟨by decide, by decide⟩,
    ring_ops_preserve_invariant (by decide) ⟨[0, 0, 0, 0], 0, 0⟩ (by decide) 5⟩

/-- C1 (code bug): an ACK whose sequence acknowledges `acked = 2`
outstanding frames pops and frees only ONE window entry — the `break`
following the first successful `pop` in `SRPEndpoint::rx_ack` exits the
loop immediately — so the window head does NOT advance to the ACKed
sequence: one entry (of mbuf 102) is left outstanding. -/
theorem srp_rx_ack_pops_at_most_one :
    wsub W32 exAck2.seq exState2.rx_seq = 2 ∧
    exState2.outstanding_tx.size = 2 ∧
    srp.rx_ack exState2 exAck2 =
      some ({ exState2 with outstanding_tx := { exWindow2 with head := 1 } },
        [101]) ∧
    ({ exWindow2 with head := 1 } : Ring Nat srp.BURST_SIZE).size = 1 :=
  ⟨by decide, by decide, by decide, by decide⟩

/-- C7 (code bug): a stale / duplicate ACK (`seq = rx_seq + 1`) arriving
while the outstanding-TX window is empty drives `SRPEndpoint::rx_ack` into
`panic("outstanding_tx is empty")` — the process aborts via `exit(1)`
instead of ignoring the ACK and leaving the state unchanged. -/
theorem srp_rx_ack_stale_ack_panics :
    exStateEmpty.outstanding_tx.empty = true ∧
    wsub W32 exAck1.seq exStateEmpty.rx_seq = 1 ∧
    srp.rx_ack exStateEmpty exAck1 = none :=
  ⟨by decide, by decide, by decide⟩

/-- C5 (code bug): `srp::SRPEndpoint::parse_frame` does not silently drop
every malformed frame: on a frame of valid length and EtherType whose
version field is 2 it calls `panic("unsupported version %u")` (process
abort via `exit(1)`), and likewise `panic("invalid frame")` on a frame
whose `payload_len` field is 2000 > MAX_PAYLOAD. -/
theorem srp_parse_frame_panics_on_malformed :
    srp.parse_frame exBadVersionFrame = Res.panicked ∧
    srp.parse_frame exOversizeLenFrame = Res.panicked ∧
    exBadVersionFrame.pkt_len = ETHER_HDR_LEN + srp.SIZEOF_SRP_HDR ∧
    exBadVersionFrame.ether_type = bswap16 srp.ETH_TYPE :=
  ⟨by decide, by decide, by decide, by decide⟩

/-- C3 counterexample: with a FULL outstanding-TX window (64 of 64) and a
nonempty outbound ring, `SRPEndpoint::tx` still dequeues the Payload — the
dequeue is not guarded by window fullness.  (The built frame is then lost:
the failed `push`'s boolean result is discarded and the window is
unchanged.) -/
theorem srp_tx_dequeues_when_full :
    exStateFull.outstanding_tx.full = true ∧
    (srp.tx exStateFull [exPayload100] 0 999).2 = [] ∧
    (srp.tx exStateFull [exPayload100] 0 999).1.outstanding_tx
      = exStateFull.outstanding_tx :=
  ⟨by decide, by decide, by decide⟩

/-- C3 (amended): `SRPEndpoint::tx` dequeues from the outbound ring
whenever it is nonempty, regardless of window fullness; when the window is
full, the discarded `push` leaves the window unchanged (the frame is lost
rather than the dequeue deferred); and every TX step and RX step (`tx` and
`rx_one`, the latter covering `rx_ack`) preserves the window-occupancy
invariant `size ≤ capacity` (`Ring.WF`). -/
theorem srp_tx_window_bounded
    (st : srp.EngineState) (outq : List Payload) (now fresh : Nat)
    (p : Payload) (rest : List Payload) (rcv : srp.srp_hdr) (mac : Nat)
    (out : srp.EngineState × List Nat × Option Payload)
    (hw : Ring.WF st.outstanding_tx) :
    (srp.tx st (p :: rest) now fresh).2 = rest ∧
    (st.outstanding_tx.full = true →
      (srp.tx st (p :: rest) now fresh).1.outstanding_tx
        = st.outstanding_tx) ∧
    Ring.WF (srp.tx st outq now fresh).1.outstanding_tx ∧
    (srp.rx_one st rcv mac = some out → Ring.WF out.1.outstanding_tx) := by
  have hring1 : (srp.tx_retransmit st now).1.outstanding_tx
      = st.outstanding_tx := tx_retransmit_outstanding st now
  have key : ∀ a as, (srp.tx st (a :: as) now fresh).1.outstanding_tx
      = (st.outstanding_tx.push fresh).2 := by
    intro a as
    simp [srp.tx, hring1]
  refine ⟨by simp [srp.tx], ?_, ?_, ?_⟩
  · intro hf
    rw [key p rest, Ring.push_full hf]
  · cases outq with
    | nil => simpa [srp.tx, hring1] using hw
    | cons a as =>
      rw [key a as]
      exact Ring.WF_push (by decide) hw fresh
  · intro h
    simp only [srp.rx_one] at h
    split at h
    · split at h
      · rename_i st1 freed heq
        obtain rfl := Option.some.inj h
        refine rx_ack_WF ?_ heq
        exact hw
      · exact absurd h (by simp)
    · split at h
      · obtain rfl := Option.some.inj h
        exact hw
      · obtain rfl := Option.some.inj h
        exact hw

/-- Witness for `srp_tx_window_bounded`: full window, a single queued
Payload, a stale ACK header, concrete mbuf 999. -/
theorem srp_tx_window_bounded_witness :
    Ring.WF exStateFull.outstanding_tx ∧
    ((srp.tx exStateFull (exPayload100 :: []) 0 999).2 = [] ∧
      (exStateFull.outstanding_tx.full = true →
        (srp.tx exStateFull (exPayload100 :: []) 0 999).1.outstanding_tx
          = exStateFull.outstanding_tx) ∧
      Ring.WF (srp.tx exStateFull [exPayload100] 0 999).1.outstanding_tx ∧
      (srp.rx_one exStateFull exAck1 5 = some exRxOut →
        Ring.WF exRxOut.1.outstanding_tx)) :=
  ⟨by decide,
    srp_tx_window_bounded exStateFull [exPayload100] 0 999 exPayload100 []
      exAck1 5 exRxOut (by decide)⟩

/-- C4 counterexample: with a wrapped window (head at slot 63; two
outstanding frames, mbuf 7 in slot 63 and mbuf 8 in slot 0) whose
retransmit timeout (100 cycles) has elapsed, `tx_retransmit` bursts only
`longest_span()` = [7] — not the entire outstanding window [7, 8]. -/
theorem srp_retransmit_misses_wrapped_frames :
    exStateWrap.timeout_cycles ≤ wsub W64 100 exStateWrap.last_tx_cycles ∧
    exStateWrap.outstanding_tx.toList = [7, 8] ∧
    (srp.tx_retransmit exStateWrap 100).2 = [7] :=
  ⟨by decide, by decide, by decide⟩

/-- C4 (amended): when the elapsed time since `last_tx_cycles` reaches the
configured timeout, `tx_retransmit` retransmits the longest *contiguous*
span from the window head as one burst and resets the timeout reference to
`now`; this burst is the entire outstanding window exactly when the
occupied slots do not wrap around the circular buffer.  The timeout
defaults to `rte_get_timer_hz() / 10` when configured as 0. -/
theorem srp_retransmit_whole_window_no_wrap
    (st : srp.EngineState) (now hz : Nat)
    (hne : st.outstanding_tx.empty = false)
    (ht : st.timeout_cycles ≤ wsub W64 now st.last_tx_cycles)
    (hnw : st.outstanding_tx.head % 64 + st.outstanding_tx.size ≤ 64) :
    srp.tx_retransmit st now =
      ({ st with last_tx_cycles := now }, st.outstanding_tx.toList) ∧
    srp.start_timeout 0 hz = hz / 10 := by
  constructor
  · unfold srp.tx_retransmit
    rw [hne]
    simp only [Bool.false_eq_true, if_false, if_pos ht]
    rw [longest_span_no_wrap st.outstanding_tx hnw]
  · simp [srp.start_timeout]

/-- Witness for `srp_retransmit_whole_window_no_wrap`: the two-entry
non-wrapped window of `exState2`, `now = 100`, `hz = 1000`. -/
theorem srp_retransmit_whole_window_no_wrap_witness :
    (exState2.outstanding_tx.empty = false ∧
      exState2.timeout_cycles ≤ wsub W64 100 exState2.last_tx_cycles ∧
      exState2.outstanding_tx.head % 64 + exState2.outstanding_tx.size ≤ 64) ∧
    (srp.tx_retransmit exState2 100 =
        ({ exState2 with last_tx_cycles := 100 },
          exState2.outstanding_tx.toList) ∧
      srp.start_timeout 0 1000 = 1000 / 10) :=
  ⟨⟨by decide, by decide, by decide⟩,
    srp_retransmit_whole_window_no_wrap exState2 100 1000 (by decide)
      (by decide) (by decide)⟩

/-- C2 counterexample: for the second URP variant the round trip fails —
building a frame from a 100-byte Payload with sequence 1 and parsing it
back yields sequence 0 (not 1) and payload_len 0 (not 100): this
`parse_frame` reads only the opcode. -/
theorem urp2_parse_build_loses_fields :
    parseAfterBuild2 0 0 exPayload100 1 exMem =
      some { seq := 0, version := 0, opcode := urp2.OPCODE_DATA,
             payload_len := 0 } ∧
    exPayload100.size = 100 ∧ (0 : Nat) ≠ 1 :=
  ⟨by decide, by decide, by decide⟩

/-- C2 (amended): for the SRP framing, `parse(build(p, seq))` recovers the
sequence, the (hardcoded DATA) opcode, the payload length, and the payload
bytes, for every indeterminate mbuf memory `mem`; for the second URP
variant's framing only the opcode survives the round trip — `seq` and
`payload_len` parse as 0 — and only once the frame reaches 100 bytes
(`p.size ≥ 74`), since that parse validates nothing but the length and
reads nothing but the opcode.  (Neither builder takes an opcode parameter:
each hardcodes DATA; SRP ACKs have their own builder.) -/
theorem srp_parse_build_roundtrip
    (p : Payload) (hsize : p.size ≤ srp.MAX_PAYLOAD)
    (hdata : p.data.length = srp.MAX_PAYLOAD)
    (seq : Nat) (hseq : seq < W32) (src dst : Nat)
    (mem mem2 : List Nat) :
    srp.parse_frame (srp.build_data_frame src dst p seq mem) =
      Res.ok { seq := seq, version := 1, opcode := srp.OPCODE_DATA,
               payload_len := p.size,
               payload := (srp.build_data_frame src dst p seq mem).payload_mem } ∧
    (srp.build_data_frame src dst p seq mem).payload_mem.take p.size
      = p.data.take p.size ∧
    (74 ≤ p.size →
      parseAfterBuild2 src dst p seq mem2 =
        some { seq := 0, version := 0, opcode := urp2.OPCODE_DATA,
               payload_len := 0 }) := by
  have hmax : p.size ≤ 1024 := by simpa [srp.MAX_PAYLOAD] using hsize
  have h1 : bswap16 (bswap16 1) = 1 := bswap16_involutive (by norm_num)
  have hps : p.size % 2 ^ 16 = p.size := Nat.mod_eq_of_lt (by omega)
  have h2 : bswap16 (bswap16 (p.size % 2 ^ 16)) = p.size := by
    rw [bswap16_involutive (Nat.mod_lt _ (by norm_num)), hps]
  have h3 : bswap32 (bswap32 (seq % W32)) = seq := by
    have hm : seq % W32 < 2 ^ 32 := by
      simpa [W32] using Nat.mod_lt seq (show 0 < W32 by norm_num [W32])
    rw [bswap32_involutive hm, Nat.mod_eq_of_lt (by simpa [W32] using hseq)]
  have hop : bswap16 (bswap16 srp.OPCODE_DATA) = srp.OPCODE_DATA :=
    bswap16_involutive (by norm_num [srp.OPCODE_DATA])
  refine ⟨?_, ?_, ?_⟩
  · simp only [srp.parse_frame, srp.build_data_frame, h1, h2, h3, hop]
    rw [if_neg (by omega), if_neg (by simp), if_neg (by norm_num), if_neg ?hc]
    case hc =>
      push_neg
      refine ⟨by omega, ?_⟩
      simpa [srp.MAX_PAYLOAD] using hmax
  · simp only [srp.build_data_frame]
    by_cases h0 : p.size ≠ 0
    · rw [if_pos h0]
      rw [List.take_left' (by simp [List.length_take]; omega)]
    · push_neg at h0
      simp [h0]
  · intro h74
    unfold parseAfterBuild2 urp2.build_data_frame
    rw [if_neg (by simp only [urp2.TAILROOM, ETHER_HDR_LEN,
      urp2.SIZEOF_URP_HDR]; omega)]
    simp only [urp2.parse_frame]
    rw [if_neg (by simp only [ETHER_HDR_LEN, urp2.SIZEOF_URP_HDR]; omega)]
    have hop : bswap16 (bswap16 urp2.OPCODE_DATA) = urp2.OPCODE_DATA :=
      bswap16_involutive (by norm_num [urp2.OPCODE_DATA])
    rw [if_neg (by norm_num [urp2.MAX_PAYLOAD])]
    simp [hop]

/-- Witness for `srp_parse_build_roundtrip`: the 100-byte Payload of 3s,
sequence 1, all-9s mbuf memory. -/
theorem srp_parse_build_roundtrip_witness :
    (exPayload100.size ≤ srp.MAX_PAYLOAD ∧
      exPayload100.data.length = srp.MAX_PAYLOAD ∧ 1 < W32) ∧
    (srp.parse_frame (srp.build_data_frame 0 0 exPayload100 1 exMem) =
        Res.ok { seq := 1, version := 1, opcode := srp.OPCODE_DATA,
                 payload_len := exPayload100.size,
                 payload :=
                   (srp.build_data_frame 0 0 exPayload100 1 exMem).payload_mem } ∧
      (srp.build_data_frame 0 0 exPayload100 1 exMem).payload_mem.take
          exPayload100.size
        = exPayload100.data.take exPayload100.size ∧
      (74 ≤ exPayload100.size →
        parseAfterBuild2 0 0 exPayload100 1 exMem =
          some { seq := 0, version := 0, opcode := urp2.OPCODE_DATA,
                 payload_len := 0 })) :=
  ⟨⟨by decide, by decide, by decide⟩,
    srp_parse_build_roundtrip exPayload100 (by decide) (by decide) 1
      (by decide) 0 0 exMem exMem⟩

/-- C6 counterexample: building a frame from a Payload of `MAX_PAYLOAD + 1`
bytes does NOT fail — the second URP variant's `build_data_frame` returns
a frame whose `payload_len` field decodes to 1025 > MAX_PAYLOAD. -/
theorem urp2_build_emits_oversize_frame :
    urp2.build_data_frame 0 0 exPayload1025 0 exMem =
      Res.ok { pkt_len := 1051, dst := 0, src := 0,
               ether_type := bswap16 urp2.ETH_TYPE, seq_s := bswap32 0,
               version_s := bswap16 1, opcode_s := bswap16 urp2.OPCODE_DATA,
               payload_len_s := bswap16 1025, payload_mem := exMem } ∧
    bswap16 (bswap16 1025) = 1025 ∧ urp2.MAX_PAYLOAD < 1025 :=
  ⟨by decide, by decide, by decide⟩

/-- C6 (amended): a Payload of size `MAX_PAYLOAD + 1` is rejected neither
at build nor at parse by the (second-variant) URP framing: the build emits
the frame, recording `payload_len = 1025` as the uint16 truncation of
`size`, and the parse never reads the `payload_len` field — every parsed
header carries `payload_len = 0`, so an oversize field is not treated as a
parse failure.  (No packet buffer leaks on the only build failure path:
an over-tailroom append frees the mbuf before panicking.) -/
theorem urp2_oversize_not_rejected
    (src dst seq : Nat) (p : Payload) (mem : List Nat)
    (hp : p.size = urp2.MAX_PAYLOAD + 1) (f : urp2.UrpFrame) :
    urp2.build_data_frame src dst p seq mem =
      Res.ok { pkt_len := ETHER_HDR_LEN + urp2.SIZEOF_URP_HDR + p.size,
               dst := dst, src := src, ether_type := bswap16 urp2.ETH_TYPE,
               seq_s := bswap32 (seq % W32), version_s := bswap16 1,
               opcode_s := bswap16 urp2.OPCODE_DATA,
               payload_len_s := bswap16 1025, payload_mem := mem } ∧
    bswap16 (bswap16 1025) = 1025 ∧
    (urp2.parse_frame f).payload_len = 0 := by
  refine ⟨?_, by decide, ?_⟩
  · unfold urp2.build_data_frame
    rw [if_neg (by simp only [urp2.TAILROOM, ETHER_HDR_LEN,
      urp2.SIZEOF_URP_HDR, hp, urp2.MAX_PAYLOAD]; omega)]
    simp only [hp, urp2.MAX_PAYLOAD]
    norm_num
  · unfold urp2.parse_frame
    split
    · rfl
    · rw [if_neg (by norm_num [urp2.MAX_PAYLOAD])]

/-- Witness for `urp2_oversize_not_rejected`: the 1025-byte Payload, MACs
7/8, sequence 0, all-9s memory, parse applied to the concrete v2 frame. -/
theorem urp2_oversize_not_rejected_witness :
    exPayload1025.size = urp2.MAX_PAYLOAD + 1 ∧
    (urp2.build_data_frame 7 8 exPayload1025 0 exMem =
        Res.ok { pkt_len := ETHER_HDR_LEN + urp2.SIZEOF_URP_HDR +
                   exPayload1025.size,
                 dst := 8, src := 7, ether_type := bswap16 urp2.ETH_TYPE,
                 seq_s := bswap32 (0 % W32), version_s := bswap16 1,
                 opcode_s := bswap16 urp2.OPCODE_DATA,
                 payload_len_s := bswap16 1025, payload_mem := exMem } ∧
      bswap16 (bswap16 1025) = 1025 ∧
      (urp2.parse_frame exUrp2Frame).payload_len = 0) :=
  ⟨by decide,
    urp2_oversize_not_rejected 7 8 0 exPayload1025 exMem (by decide)
      exUrp2Frame⟩

/-- C8 counterexample: the first URP variant's TX frees every Payload it
dequeues — draining an outbound ring of 128 Payload pointers `rte_free`s
all 128, so the dequeued pointers no longer refer to live records. -/
theorem urp1_tx_frees_dequeued_payloads :
    (urp1.tx (List.range 128)).2 = List.range 128 ∧
    List.range 128 ≠ ([] : List Nat) :=
  ⟨by decide, by decide⟩

/-- C8 (amended): Payload-record ownership differs between the two URP TX
variants.  The second variant's TX never frees a dequeued Payload (its
freed list is empty on every non-panicking run); the first variant's TX
`rte_free`s every Payload it dequeues — its drain loop consumes and frees
all complete 128-entry batches, leaving the sub-batch remainder queued. -/
theorem urp_tx_payload_ownership
    (unit_size tx_burst : Nat) (q2 : List Nat)
    (r : List Nat × List Nat × List Nat)
    (hok : urp2.tx unit_size tx_burst q2 = Res.ok r) (q : List Nat) :
    r.2.2 = [] ∧
    (urp1.tx q).2 = q.take (q.length - q.length % urp1.BURST_SIZE) ∧
    (urp1.tx q).1 = q.drop (q.length - q.length % urp1.BURST_SIZE) := by
  refine ⟨?_, ?_, ?_⟩
  · simp only [urp2.tx] at hok
    split at hok
    · simp only [Res.ok.injEq] at hok
      subst hok
      rfl
    · split at hok
      · simp at hok
      · simp only [Res.ok.injEq] at hok
        subst hok
        rfl
  · rw [urp1_tx_spec]
  · rw [urp1_tx_spec]

/-- Witness for `urp_tx_payload_ownership`: a three-entry outbound ring for
the second variant (unit size 64, burst 128) and a 128-entry ring for the
first variant. -/
theorem urp_tx_payload_ownership_witness :
    urp2.tx 64 128 [1, 2, 3] = Res.ok ([], [1, 2, 3], []) ∧
    ((([], [1, 2, 3], []) : List Nat × List Nat × List Nat).2.2 = [] ∧
      (urp1.tx (List.range 128)).2 =
        (List.range 128).take
          ((List.range 128).length - (List.range 128).length % urp1.BURST_SIZE) ∧
      (urp1.tx (List.range 128)).1 =
        (List.range 128).drop
          ((List.range 128).length - (List.range 128).length % urp1.BURST_SIZE)) :=
  ⟨by decide,
    urp_tx_payload_ownership 64 128 [1, 2, 3] ([], [1, 2, 3], []) (by decide)
      (List.range 128)⟩

/-- C9 counterexample: the second URP variant's RX, given one valid DATA
frame (126 bytes, DATA opcode, payload bytes of 7s), allocates no fresh
Payload and enqueues the preallocated pointer 55 instead — no frame byte
is copied anywhere, so the consumer's Payload does not carry the frame's
bytes. -/
theorem urp2_rx_does_not_copy :
    urp2.rx [exUrp2Frame] [55] = ([exUrp2Frame], [55], 0) ∧
    bswap16 exUrp2Frame.opcode_s = urp2.OPCODE_DATA ∧
    100 ≤ exUrp2Frame.pkt_len :=
  ⟨by decide, by decide, by decide⟩

/-- C9 (amended): the first URP variant's RX behaves as the claim states:
for every accepted DATA frame (sufficient length, matching EtherType, DATA
opcode, in-range payload_len) it allocates a fresh zeroed Payload, copies
the frame's `payload_len` and payload bytes into it, and enqueues exactly
that Payload inbound (the NIC buffer is freed unconditionally at the end
of the loop body).  The second variant's RX instead performs zero fresh
allocations and enqueues the first `nb_rx` *preallocated* Payload
pointers, copying no frame bytes. -/
theorem urp1_rx_delivers_frame_payload
    (f : EthFrame)
    (hlen : ¬ f.pkt_len < ETHER_HDR_LEN + urp1.SIZEOF_URP_HDR)
    (heth : bswap16 f.ether_type = urp1.ETH_TYPE)
    (hop : bswap16 f.opcode_s = urp1.OPCODE_DATA)
    (hpl : bswap16 f.payload_len_s ≤ urp1.MAX_PAYLOAD)
    (hmem : f.payload_mem.length = urp1.MAX_PAYLOAD)
    (frames : List urp2.UrpFrame) (prealloc : List Nat) :
    urp1.rx_one f =
      some { size := bswap16 f.payload_len_s,
             data := f.payload_mem.take (bswap16 f.payload_len_s) ++
               List.replicate (urp1.MAX_PAYLOAD - bswap16 f.payload_len_s) 0 } ∧
    urp2.rx frames prealloc = (frames, prealloc.take frames.length, 0) := by
  constructor
  · have hclamp : (if urp1.MAX_PAYLOAD < bswap16 f.payload_len_s
        then urp1.MAX_PAYLOAD else bswap16 f.payload_len_s)
        = bswap16 f.payload_len_s := if_neg (by omega)
    have hethne : ¬ bswap16 f.ether_type ≠ urp1.ETH_TYPE := by simp [heth]
    simp only [urp1.rx_one, urp1.parse_frame, if_neg hlen, if_neg hethne,
      hclamp, hop]
    rw [if_pos trivial]
    have htk : (f.payload_mem.take (bswap16 f.payload_len_s) ++
          List.replicate (urp1.MAX_PAYLOAD - bswap16 f.payload_len_s) 0).take
            (bswap16 f.payload_len_s)
        = f.payload_mem.take (bswap16 f.payload_len_s) := by
      refine List.take_left' ?_
      simp only [List.length_take, hmem]
      omega
    rw [htk]
  · rfl

/-- Witness for `urp1_rx_delivers_frame_payload`: the concrete URP-v1 DATA
frame carrying bytes 1..8 (payload_len 8), one v2 frame, prealloc [55]. -/
theorem urp1_rx_delivers_frame_payload_witness :
    ((¬ exUrp1Frame.pkt_len < ETHER_HDR_LEN + urp1.SIZEOF_URP_HDR) ∧
      bswap16 exUrp1Frame.ether_type = urp1.ETH_TYPE ∧
      bswap16 exUrp1Frame.opcode_s = urp1.OPCODE_DATA ∧
      bswap16 exUrp1Frame.payload_len_s ≤ urp1.MAX_PAYLOAD ∧
      exUrp1Frame.payload_mem.length = urp1.MAX_PAYLOAD) ∧
    (urp1.rx_one exUrp1Frame =
        some { size := bswap16 exUrp1Frame.payload_len_s,
               data := exUrp1Frame.payload_mem.take
                   (bswap16 exUrp1Frame.payload_len_s) ++
                 List.replicate
                   (urp1.MAX_PAYLOAD - bswap16 exUrp1Frame.payload_len_s) 0 } ∧
      urp2.rx [exUrp2Frame] [55] =
        ([exUrp2Frame], ([55] : List Nat).take [exUrp2Frame].length, 0)) :=
  ⟨⟨by decide, by decide, by decide, by decide, by decide⟩,
    urp1_rx_delivers_frame_payload exUrp1Frame (by decide) (by decide)
      (by decide) (by decide) (by decide) [exUrp2Frame] [55]⟩

end DpdkFifo
